import Mathlib

/-!
Verification of the conversational scheduling engine of
`Aditya12320/ConversationalAIAgent` (`src/backend/agent.py`,
`src/backend/calendar_service.py`).  Python dictionaries and strings are
embedded shallowly: strings are Lean `String`s manipulated through helpers
over their `List Char` representation (so everything computes in the
kernel), times of day are minutes from midnight, external collaborators
(Google calendar API, the LLM endpoint, `json.loads`, `dateparser`) are
oracle parameters.
-/

namespace Spec2Proof

/-! ### String helpers modelling Python `str` operations -/

/-- Whether `pat` is a prefix of the second list. -/
def isPrefixL : List Char → List Char → Bool
  | [], _ => true
  | _ :: _, [] => false
  | a :: as, b :: bs => a = b && isPrefixL as bs

/-- Whether `pat` occurs as a contiguous substring: models Python `pat in s`. -/
def occursL (pat : List Char) : List Char → Bool
  | [] => isPrefixL pat []
  | c :: rest => isPrefixL pat (c :: rest) || occursL pat rest

/-- Models the Python membership test `pat in s` on strings. -/
def occursS (s pat : String) : Bool := occursL pat.data s.data

/-- Fuel-driven core of `replaceS`; the fuel is the length of the scanned list,
which bounds the number of recursive steps since every step drops at least one
character. -/
def replaceF (pat rep : List Char) : Nat → List Char → List Char
  | 0, s => s
  | _ + 1, [] => []
  | fuel + 1, c :: rest =>
    if pat ≠ [] && isPrefixL pat (c :: rest) then
      rep ++ replaceF pat rep fuel (List.drop (pat.length - 1) rest)
    else
      c :: replaceF pat rep fuel rest

/-- Models Python `s.replace(pat, rep)` for a nonempty pattern. -/
def replaceS (s pat rep : String) : String :=
  String.mk (replaceF pat.data rep.data s.data.length s.data)

/-- Fuel-driven core of `splitS`. -/
def splitF (sep : List Char) : Nat → List Char → List (List Char)
  | 0, s => [s]
  | _ + 1, [] => [[]]
  | fuel + 1, c :: rest =>
    if sep ≠ [] && isPrefixL sep (c :: rest) then
      [] :: splitF sep fuel (List.drop (sep.length - 1) rest)
    else
      match splitF sep fuel rest with
      | g :: gs => (c :: g) :: gs
      | [] => [[c]]

/-- Models Python `s.split(sep)` for a nonempty separator. -/
def splitS (s sep : String) : List String :=
  (splitF sep.data s.data.length s.data).map String.mk

/-- The whitespace characters stripped by Python `str.strip()` (ASCII subset). -/
def isPySpace (c : Char) : Bool := c = ' ' || c = '\t' || c = '\n' || c = '\r'

/-- Models Python `s.strip()`. -/
def stripS (s : String) : String :=
  String.mk ((s.data.dropWhile isPySpace).reverse.dropWhile isPySpace).reverse

/-- ASCII lower-casing of one character. -/
def lowerC (c : Char) : Char :=
  if 'A' ≤ c && c ≤ 'Z' then Char.ofNat (c.toNat + 32) else c

/-- Models Python `s.lower()` for ASCII text. -/
def lowerS (s : String) : String := String.mk (s.data.map lowerC)

/-- Decimal digit test, modelling the regex class `\d` on ASCII. -/
def isDigitC (c : Char) : Bool := '0' ≤ c && c ≤ '9'

/-- Numeric value of a decimal digit. -/
def digitVal (c : Char) : Nat := c.toNat - '0'.toNat

/-- Value of a list of decimal digits. -/
def digitsToNat (ds : List Char) : Nat := ds.foldl (fun a c => a * 10 + digitVal c) 0

/-- Models Python `int(s)` on unsigned decimal text; `none` models `ValueError`. -/
def toNatS (s : String) : Option Nat :=
  let t := stripS s
  if t.data ≠ [] && t.data.all isDigitC then some (digitsToNat t.data) else none

/-- Models the Python format `f"{n:02d}"`. -/
def fmt2 (n : Nat) : String := if n < 10 then ("0" ++ toString n) else toString n

/-! ### SlotAvailabilityEngine (`calendar_service.get_available_slots`)

Times are minutes from midnight; the working window of the source is
09:00-17:00, i.e. 540-1020. -/

/-- A time interval of the working day, in minutes from midnight.  Mirrors the
`{"start": ..., "end": ...}` dictionaries of `calendar_service.py` (`stop`
stands for the Python key `end`, a Lean keyword). -/
structure Interval where
  start : Nat
  stop : Nat
deriving DecidableEq, Repr

/-- The candidate-generation loop of `get_available_slots`: from `current`, emit
`[current, current + duration)` and step by 15 minutes while
`current + duration <= 1020`.  `fuel` bounds the recursion; 34 steps cover the
whole working day at the 15-minute stride (at most 33 candidates exist). -/
def genSlots (duration : Nat) : Nat → Nat → List Interval
  | 0, _ => []
  | fuel + 1, current =>
    if current + duration ≤ 1020 then
      ⟨current, current + duration⟩ :: genSlots duration fuel (current + 15)
    else []

/-- All candidate slots of the working day for the requested duration. -/
def possible_slots (duration : Nat) : List Interval := genSlots duration 34 540

/-- The busy-overlap test of `get_available_slots`: a slot survives when for
every busy interval `slot_end <= busy_start or slot_start >= busy_end`. -/
def is_available (busy : List Interval) (slot : Interval) : Bool :=
  busy.all (fun b => slot.stop ≤ b.start || slot.start ≥ b.stop)

/-- Core of `get_available_slots`: generate candidates from 09:00 at a
15-minute step and keep those passing `is_available`.  (Credential lookup and
the freebusy API call supplying `busy` are external collaborators.) -/
def get_available_slots (busy : List Interval) (duration : Nat) : List Interval :=
  (possible_slots duration).filter (is_available busy)

/-- C1: for every duration and busy list, no slot returned by
`get_available_slots` overlaps any busy interval under the half-open test
(`s.start < b.end` and `s.end > b.start` never both hold), and with
busy = [10:00-10:30] and duration 30 the first returned slot starts at 09:00. -/
theorem c1_slots_exclude_busy :
    (∀ (duration : Nat) (busy : List Interval) (s b : Interval),
        s ∈ get_available_slots busy duration → b ∈ busy →
        ¬ (s.start < b.stop ∧ s.stop > b.start)) ∧
    (get_available_slots [⟨600, 630⟩] 30).head? = some ⟨540, 570⟩ := by
  constructor
  · intro duration busy s b hs hb hcontra
    have h1 : is_available busy s = true := (List.mem_filter.mp hs).2
    have h2 := (List.all_eq_true.mp h1) b hb
    simp only [Bool.or_eq_true, decide_eq_true_eq] at h2
    omega
  · rfl

/-- Witness for C1 at duration 30, busy = [10:00-10:30], slot 09:00-09:30. -/
theorem c1_slots_exclude_busy_witness :
    ¬ ((540 : Nat) < 630 ∧ (570 : Nat) > 600) :=
  c1_slots_exclude_busy.1 30 [⟨600, 630⟩] ⟨540, 570⟩ ⟨600, 630⟩ (by decide) (by decide)

/-! ### DateNormalizer (`agent._parse_date`) -/

/-- The exact-phrase relative-date table of `_parse_date`. -/
def relative_keywords : List (String × Int) :=
  [("today", 0), ("tomorrow", 1), ("day after tomorrow", 2),
   ("next week", 7), ("next month", 30)]

/-- The weekday table of `_parse_date`, in Python dict insertion order
(`date.weekday()` convention: Monday = 0). -/
def weekday_table : List (String × Int) :=
  [("monday", 0), ("tuesday", 1), ("wednesday", 2), ("thursday", 3),
   ("friday", 4), ("saturday", 5), ("sunday", 6)]

/-- The weekday prefixes scanned by `_parse_date`, in iteration order. -/
def date_prefixes : List String := ["next", "this", "coming"]

/-- The day offset computed by the weekday branch of `_parse_date`:
`days_ahead = (idx - today.weekday() + (7 if prefix != "this" else 0)) % 7`,
forced to 7 when it is 0 and the prefix is not `"this"`.  Python `%` with a
positive modulus agrees with `Int.emod`. -/
def days_ahead (pfx : String) (idx todayWd : Int) : Int :=
  let off := (idx - todayWd + (if pfx ≠ "this" then 7 else 0)) % 7
  if off = 0 ∧ pfx ≠ "this" then 7 else off

/-- The weekday scan of `_parse_date`: the first (prefix, weekday-index) pair
in iteration order with `f"{prefix} {day}" in date_str`. -/
def findWeekdayPhrase (date_str : String) : Option (String × Int) :=
  date_prefixes.findSome? fun p =>
    (weekday_table.find? fun di => occursS date_str (p ++ " " ++ di.1)).map
      fun di => (p, di.2)

/-- Core of `_parse_date`.  Dates are absolute day numbers; `todayDay` is
today's day number and `todayWd` today's weekday (Monday = 0).  `none` models
falling through to the external `dateparser` collaborator (and, failing that,
the `ValueError`). -/
def parse_date (date_str : String) (todayDay todayWd : Int) : Option Int :=
  if date_str = "" then some todayDay
  else
    let ds := stripS (lowerS date_str)
    match relative_keywords.find? (fun kv => kv.1 == ds) with
    | some kv => some (todayDay + kv.2)
    | none =>
      match findWeekdayPhrase ds with
      | some pi => some (todayDay + days_ahead pi.1 pi.2 todayWd)
      | none => none

/-- The offset exactly as the specification words it:
`(weekday_index - today_weekday + 7*(prefix != "this")) mod 7`, forced to 7
when it is 0 and the prefix is not `"this"`. -/
def spec_offset (pfx : String) (idx todayWd : Int) : Int :=
  let off := (idx - todayWd + 7 * (if pfx ≠ "this" then 1 else 0)) % 7
  if off = 0 ∧ pfx ≠ "this" then 7 else off

/-- The code's offset agrees with the specification's formula. -/
theorem days_ahead_eq_spec_offset (pfx : String) (idx w : Int) :
    days_ahead pfx idx w = spec_offset pfx idx w := by
  unfold days_ahead spec_offset
  by_cases h : pfx = "this" <;> simp [h]

/-- C2: for every reference day and every canonical weekday phrase prefixed by
next, this, or coming, `parse_date` returns today plus the specification's
offset `(weekday_index - today_weekday + 7*(prefix != "this")) mod 7`, forced
to 7 when 0 and the prefix is not `"this"`; in particular "next monday" on a
Monday yields today + 7, and "this monday" on a Monday yields today. -/
theorem c2_weekday_phrases (pfx : String) (hp : pfx ∈ date_prefixes)
    (di : String × Int) (hd : di ∈ weekday_table) (todayDay todayWd : Int) :
    parse_date (pfx ++ " " ++ di.1) todayDay todayWd
      = some (todayDay + spec_offset pfx di.2 todayWd) ∧
    parse_date ("next monday") todayDay 0 = some (todayDay + 7) ∧
    parse_date ("this monday") todayDay 0 = some todayDay := by
  have key : ∀ p ∈ date_prefixes, ∀ d ∈ weekday_table,
      (¬ (p ++ " " ++ d.1) = "") ∧
      stripS (lowerS (p ++ " " ++ d.1)) = p ++ " " ++ d.1 ∧
      relative_keywords.find? (fun kv => kv.1 == (p ++ " " ++ d.1)) = none ∧
      findWeekdayPhrase (p ++ " " ++ d.1) = some (p, d.2) := by decide
  have main : ∀ p ∈ date_prefixes, ∀ d ∈ weekday_table, ∀ td tw : Int,
      parse_date (p ++ " " ++ d.1) td tw
        = some (td + spec_offset p d.2 tw) := by
    intro p hp d hd td tw
    obtain ⟨k1, k2, k3, k4⟩ := key p hp d hd
    unfold parse_date
    rw [if_neg k1, k2]
    simp only [k3, k4]
    rw [days_ahead_eq_spec_offset]
  refine ⟨main pfx hp di hd todayDay todayWd, ?_, ?_⟩
  · have h : parse_date ("next monday") todayDay 0
        = some (todayDay + spec_offset ("next") 0 0) :=
      main ("next") (by decide) (("monday"), 0) (by decide) todayDay 0
    have hv : spec_offset ("next") 0 0 = 7 := by decide
    rw [h, hv]
  · have h : parse_date ("this monday") todayDay 0
        = some (todayDay + spec_offset ("this") 0 0) :=
      main ("this") (by decide) (("monday"), 0) (by decide) todayDay 0
    have hv : spec_offset ("this") 0 0 = 0 := by decide
    rw [h, hv, add_zero]

/-- Witness for C2 at "coming friday" with today = day 1000, a Wednesday
(weekday 2): the offset is (4 - 2 + 7) mod 7 = 2. -/
theorem c2_weekday_phrases_witness :
    parse_date ("coming friday") 1000 2 = some (1000 + spec_offset ("coming") 4 2) ∧
    parse_date ("next monday") 1000 0 = some (1000 + 7) ∧
    parse_date ("this monday") 1000 0 = some 1000 :=
  c2_weekday_phrases ("coming") (by decide) (("friday"), 4) (by decide) 1000 2

/-! ### Time-point normalization (`agent._normalize_time`) -/

/-- `_normalize_time`.  `none` models an uncaught `ValueError` from `int()` or
an arity error in `hour, minute = time_str.split(":")`. -/
def normalize_time (time_str : String) : Option String :=
  let t0 := stripS (replaceS (lowerS time_str) (".") (""))
  let is_pm := occursS t0 ("pm")
  let t := stripS (replaceS (replaceS t0 ("am") ("")) ("pm") (""))
  if ¬ occursS t (":") then do
    let hour0 ← toNatS t
    let hour := if is_pm ∧ hour0 < 12 then hour0 + 12 else hour0
    pure (fmt2 hour ++ ":00")
  else
    match splitS t (":") with
    | [hourS, minute] => do
      let hour0 ← toNatS hourS
      let hour := if is_pm ∧ hour0 < 12 then hour0 + 12 else hour0
      pure (fmt2 hour ++ ":" ++ minute)
    | _ => none

/-- C6 counterexample: `_normalize_time("12am")` is "12:00", not "00:00" — the
code has no `am` / hour = 12 → 0 rule. -/
theorem c6_counterexample :
    normalize_time ("12am") = some ("12:00") ∧ ("12:00" : String) ≠ ("00:00") := by
  constructor
  · rfl
  · decide

/-- C6 amended: `_normalize_time` strips am/pm, treats a token with no ":" as
a whole hour, adds 12 to a pm hour below 12, and leaves every am hour
unchanged (there is no am-12-to-0 rule): "12am" normalizes to "12:00". -/
theorem c6_normalize_time_amended :
    (∀ h : Fin 24, normalize_time (toString h.1) = some (fmt2 h.1 ++ ":00")) ∧
    (∀ h : Fin 24, normalize_time (toString h.1 ++ "am") = some (fmt2 h.1 ++ ":00")) ∧
    (∀ h : Fin 24, normalize_time (toString h.1 ++ "pm")
        = some (fmt2 (if h.1 < 12 then h.1 + 12 else h.1) ++ ":00")) ∧
    normalize_time ("12am") = some ("12:00") := by
  refine ⟨by decide, by decide, by decide, rfl⟩

/-! ### ConversationState and the BookingStateMachine operations

The per-user dictionaries of `BookingAgent.self.conversations`, and the
workflow nodes that mutate them.  The unused `"state": "awaiting_input"` field
and the `extracted_details` sub-dictionary (covered separately by
`extract_details` below) are not carried in the record. -/

/-- A message role (`HumanMessage` / `AIMessage`). -/
inductive Role
  | user
  | assistant
deriving DecidableEq, Repr

/-- A conversation message. -/
structure Msg where
  role : Role
  content : String
deriving DecidableEq, Repr

/-- An agent-level slot as handled by `check_availability` and
`suggest_slots`: start and end are ISO datetime strings (the dictionaries
returned by the calendar service; `stop` stands for the key `end`). -/
structure AgSlot where
  start : String
  stop : String
deriving DecidableEq, Repr

/-- The booking dictionary returned by a successful `book_appointment`. -/
structure BookingData where
  id : String
  htmlLink : String
  start : String
  stop : String
deriving DecidableEq, Repr

/-- Per-user conversation state.  `booking = none` models the `"booking"` key
being absent; `booking = some none` models
`conversation_state["booking"] = {}` (the empty dictionary that
`book_appointment` returns on failure); `booking = some (some b)` a populated
booking. -/
structure ConvState where
  messages : List Msg
  available_slots : List AgSlot
  current_slot_index : Nat
  suggested_slot : Option AgSlot
  booking : Option (Option BookingData)
deriving DecidableEq, Repr

/-- The fresh session dictionary created on a user's first turn. -/
def freshState : ConvState := ⟨[], [], 0, none, none⟩

/-- Hour extraction of `_is_time_in_range` on the slot start:
`int(slot_time.split("T")[1].split(":")[0])`.  `none` models an
`IndexError` / `ValueError` escaping to the caller. -/
def slotHour (slot_time : String) : Option Nat :=
  match splitS slot_time ("T") with
  | _ :: afterT :: _ =>
    match splitS afterT (":") with
    | h :: _ => toNatS h
    | [] => none
  | _ => none

/-- `_is_time_in_range`: `start_hour <= slot_hour < end_hour` over the hour
fields of the ISO slot start and the `"HH:MM"` window bounds.  The source
computes the three `int(...)` conversions in this order and any raise aborts
the caller, hence the single `none` outcome. -/
def is_time_in_range (slot_time startT endT : String) : Option Bool :=
  match slotHour slot_time, toNatS ((splitS startT (":")).headD ("")),
      toNatS ((splitS endT (":")).headD ("")) with
  | some sh, some st, some en => some (decide (st ≤ sh ∧ sh < en))
  | _, _, _ => none

/-- The list comprehension of `check_availability` filtering `all_slots` by
`_is_time_in_range`; `none` models an exception aborting the comprehension. -/
def filterInRange (all_slots : List AgSlot) (startT endT : String) :
    Option (List AgSlot) :=
  match all_slots with
  | [] => some []
  | s :: rest =>
    match is_time_in_range s.start startT endT with
    | none => none
    | some b =>
      match filterInRange rest startT endT with
      | none => none
      | some tl => some (if b then s :: tl else tl)

/-- Core of `check_availability`: filter the collaborator-supplied slots to
the requested hour window, store the filtered list or — if it is empty — the
full list (`filtered_slots or all_slots`), and reset the slot pointer to 0.
A failure inside the filter models the `except` branch, which appends the
failure message and leaves slots and pointer unchanged.  (Date/time parsing
and the calendar call producing `all_slots`, `startT`, `endT` happen before
this core.) -/
def check_availability (all_slots : List AgSlot) (startT endT : String)
    (s : ConvState) : ConvState :=
  match filterInRange all_slots startT endT with
  | some filtered =>
    { s with
      available_slots := if filtered.isEmpty then all_slots else filtered,
      current_slot_index := 0 }
  | none =>
    { s with messages := s.messages ++
        [⟨Role.assistant, "Failed to check availability. Please try again."⟩] }

/-- Rendered suggestion text of `suggest_slots` (the `_format_datetime`
display formatting of the two instants is abstracted to the raw ISO
strings). -/
def suggestText (slot : AgSlot) : String :=
  "I found an available slot: " ++ slot.start ++ " - " ++ slot.stop ++
    ". Would this work for you? (Yes/No)"

/-- `suggest_slots`.  Note the middle branch: the source sets
`"messages": [AIMessage(content=response)]` inside
`conversation_state.update(...)`, replacing the whole message list rather
than appending to it. -/
def suggest_slots (s : ConvState) : ConvState :=
  if s.available_slots.isEmpty then
    { s with messages := s.messages ++
        [⟨Role.assistant,
          "No available slots found for your requested time. Please try another time."⟩] }
  else if h : s.current_slot_index < s.available_slots.length then
    { s with
      suggested_slot := some (s.available_slots.get ⟨s.current_slot_index, h⟩),
      current_slot_index := s.current_slot_index + 1,
      messages := [⟨Role.assistant,
        suggestText (s.available_slots.get ⟨s.current_slot_index, h⟩)⟩] }
  else
    { s with messages := s.messages ++
        [⟨Role.assistant,
          "No more available slots for your requested time. Please try another time."⟩] }

/-- `book_appointment` of `calendar_service.py`, applied to a start and end
instant.  `api` is the external Google events-insert collaborator;
`Except.error` covers an exception from the API as well as missing
credentials — in every such case the source catches the failure internally
and returns the empty dictionary `{}` (modelled `none`), so the function
itself never raises.  The `summary` argument only flows into the API call and
is omitted. -/
def book_appointment (api : String → String → Except Unit BookingData)
    (startT endT : String) : Option BookingData :=
  match api startT endT with
  | Except.error _ => none
  | Except.ok b => some b

/-- `finalize_booking` (the turn's user id is nonempty here; `process_message`
guards the empty case).  The `except` branch of the source — which appends
"Failed to book appointment. Please try again." — can only fire if
`book_appointment` raises; since `book_appointment` catches every exception
and returns `{}` instead, the translation has no failure branch after the
call and stores whatever dictionary came back. -/
def finalize_booking (api : String → String → Except Unit BookingData)
    (s : ConvState) : ConvState :=
  match s.suggested_slot with
  | none =>
    { s with messages := s.messages ++
        [⟨Role.assistant, "No appointment slot selected. Please start over."⟩] }
  | some slot =>
    { s with booking := some (book_appointment api slot.start slot.stop) }

/-- The guarded append of `generate_response`: append only when no existing
message has exactly this content
(`if not any(msg.content == response for msg in conv_state["messages"])`). -/
def dedupAppend (s : ConvState) (resp : String) : ConvState :=
  if s.messages.any (fun m => m.content == resp) then s
  else { s with messages := s.messages ++ [⟨Role.assistant, resp⟩] }

/-- Rendered confirmation text of `generate_response` (the
`_format_datetime` display formatting of the two instants is abstracted to
the raw strings of the booking). -/
def confirmText (b : BookingData) : String :=
  "Appointment booked! When: " ++ b.start ++ " - " ++ b.stop ++
    " Link: " ++ b.htmlLink

/-- `generate_response`.  When `booking` is present but empty (`{}`), the
source raises `KeyError` on `booking["start"]`, which escapes the node;
this is modelled as `none`. -/
def generate_response (s : ConvState) : Option ConvState :=
  match s.booking with
  | some none => none
  | some (some b) => some (dedupAppend s (confirmText b))
  | none =>
    let resp :=
      if s.available_slots.isEmpty then
        ("No available slots found for your requested time.")
      else ("How would you like to proceed?")
    some (dedupAppend s resp)

/-- The per-user conversation store `self.conversations`, an association list
keyed by user id. -/
def Store := List (String × ConvState)

/-- Look a user's session up in the store. -/
def storeFind (store : Store) (uid : String) : Option ConvState :=
  (store.find? (fun kv => kv.1 == uid)).map (fun kv => kv.2)

/-- Replace (or add) a user's session in the store. -/
def storePut : Store → String → ConvState → Store
  | [], uid, st => [(uid, st)]
  | kv :: rest, uid, st =>
    if kv.1 == uid then (uid, st) :: rest else kv :: storePut rest uid st

/-- `process_message`.  `runTurn` abstracts the compiled workflow stream run
on the session state for one turn (nodes `extract` through `respond`); the
returned text is the content of the most recent assistant message.  The empty
user id models the Python falsy check `if not user_id`, which returns before
any session is read or created. -/
def process_message (runTurn : ConvState → String → ConvState)
    (store : Store) (message user_id : String) : String × Store :=
  if user_id = "" then (("Authentication error. Please sign in again."), store)
  else
    let st0 := (storeFind store user_id).getD freshState
    let st1 := { st0 with messages := st0.messages ++ [⟨Role.user, message⟩] }
    let st2 := runTurn st1 message
    let resp := ((st2.messages.reverse.find? (fun m => m.role == Role.assistant)).map
      (fun m => m.content)).getD ("Sorry, I didn't understand that.")
    (resp, storePut store user_id st2)

/-! ### IntentExtractor and FallbackExtractor
(`agent.extract_details`, `agent._simple_extraction`)

The two regular expressions of `_simple_extraction` are implemented as greedy
scanners; for both patterns every group after a greedy group is optional or
starts with a character no greedy group can consume, so greedy matching
without backtracking agrees with Python `re.search` semantics. -/

/-- `ExtractedDetails` with the fallback defaults.  `duration` is an `Int`
because the `between` branch recomputes it by subtraction, which can go
negative in Python. -/
structure Details where
  date : String
  time : String
  duration : Int
  purpose : String
deriving DecidableEq, Repr

/-- The weekday names scanned by `_simple_extraction` (Monday-Friday only). -/
def fallback_days : List String :=
  ["monday", "tuesday", "wednesday", "thursday", "friday"]

/-- Greedy match of the fallback time pattern
`(\d{1,2})(?::(\d{2}))?\s*(am|pm)?` at the head of `s`, returning
(hour digits value, minute value or 0, optional am/pm). -/
def timeMatchAt (s : List Char) : Option (Nat × Nat × Option String) :=
  match s with
  | [] => none
  | c1 :: rest1 =>
    if isDigitC c1 then
      let dr : List Char × List Char :=
        match rest1 with
        | c2 :: r2 => if isDigitC c2 then ([c1, c2], r2) else ([c1], rest1)
        | [] => ([c1], rest1)
      let mr : Nat × List Char :=
        match dr.2 with
        | ':' :: m1 :: m2 :: r3 =>
          if isDigitC m1 && isDigitC m2 then (digitsToNat [m1, m2], r3)
          else (0, dr.2)
        | _ => (0, dr.2)
      let r4 := mr.2.dropWhile isPySpace
      let period : Option String :=
        if isPrefixL [ 'a', 'm'] r4 then some ("am")
        else if isPrefixL [ 'p', 'm'] r4 then some ("pm")
        else none
      some (digitsToNat dr.1, mr.1, period)
    else none

/-- Leftmost match of the fallback time pattern (Python `re.search`): try
every start position left to right. -/
def timeSearch : List Char → Option (Nat × Nat × Option String)
  | [] => none
  | c :: rest =>
    match timeMatchAt (c :: rest) with
    | some m => some m
    | none => timeSearch rest

/-- Greedy match of `(\d+)(?::(\d+))?\s*(am|pm)?` at the head of `s`,
returning the hour value, minute value (0 when the group is absent), the
optional period, and the unconsumed rest. -/
def hmPeriodAt (s : List Char) : Option (Nat × Nat × Option String × List Char) :=
  let ds := s.takeWhile isDigitC
  let r1 := s.dropWhile isDigitC
  if ds.isEmpty then none
  else
    let mr : Nat × List Char :=
      match r1 with
      | ':' :: r =>
        let ms := r.takeWhile isDigitC
        if ms.isEmpty then (0, r1) else (digitsToNat ms, r.dropWhile isDigitC)
      | _ => (0, r1)
    let r3 := mr.2.dropWhile isPySpace
    let pr : Option String × List Char :=
      if isPrefixL [ 'a', 'm'] r3 then (some ("am"), r3.drop 2)
      else if isPrefixL [ 'p', 'm'] r3 then (some ("pm"), r3.drop 2)
      else (none, r3)
    some (digitsToNat ds, mr.1, pr.1, pr.2)

/-- Greedy match of the whole range pattern
`between (\d+)(?::(\d+))?\s*(am|pm)?\s*(?:-|and)\s*(\d+)(?::(\d+))?\s*(am|pm)?`
at the head of `s`. -/
def rangeMatchAt (s : List Char) :
    Option (Nat × Nat × Option String × Nat × Nat × Option String) :=
  if isPrefixL ("between ").data s then
    match hmPeriodAt (s.drop 8) with
    | none => none
    | some (sh, sm, sp, r1) =>
      let r2 := r1.dropWhile isPySpace
      match
        (if isPrefixL [ '-'] r2 then some (r2.drop 1)
         else if isPrefixL [ 'a', 'n', 'd'] r2 then some (r2.drop 3)
         else none) with
      | none => none
      | some r3 =>
        match hmPeriodAt (r3.dropWhile isPySpace) with
        | none => none
        | some (eh, em, ep, _) => some (sh, sm, sp, eh, em, ep)
  else none

/-- Leftmost match of the range pattern (Python `re.search`). -/
def rangeSearch : List Char → Option (Nat × Nat × Option String × Nat × Nat × Option String)
  | [] => none
  | c :: rest =>
    match rangeMatchAt (c :: rest) with
    | some m => some m
    | none => rangeSearch rest

/-- `_simple_extraction` (`FallbackExtractor`): deterministic keyword/regex
extraction with defaults date today, time 12:00, duration 30, purpose
Meeting.  Total — it never raises. -/
def simple_extraction (user_input : String) : Details :=
  let ui := lowerS user_input
  let date :=
    if occursS ui ("tomorrow") then ("tomorrow")
    else
      match fallback_days.find? (fun d => occursS ui d) with
      | some d => ("next " ++ d)
      | none => if occursS ui ("next week") then ("next week") else ("today")
  let time :=
    if occursS ui ("afternoon") then ("14:00")
    else if occursS ui ("morning") then ("09:00")
    else if occursS ui ("evening") then ("17:00")
    else
      match timeSearch ui.data with
      | some (h0, m0, period) =>
        let hour :=
          if period = some ("pm") ∧ h0 < 12 then h0 + 12
          else if period = some ("am") ∧ h0 = 12 then 0
          else h0
        fmt2 hour ++ ":" ++ fmt2 m0
      | none => ("12:00")
  let td : String × Int :=
    if occursS ui ("between") ∧ (occursS ui ("-") ∨ occursS ui ("and")) then
      match rangeSearch ui.data with
      | some (sh0, sm, sp, eh0, em, ep) =>
        let sh :=
          if sp = some ("pm") ∧ sh0 < 12 then sh0 + 12
          else if sp = some ("am") ∧ sh0 = 12 then 0
          else sh0
        let eh :=
          if ep = some ("pm") ∧ eh0 < 12 then eh0 + 12
          else if ep = some ("am") ∧ eh0 = 12 then 0
          else eh0
        (fmt2 sh ++ ":" ++ fmt2 sm ++ "-" ++ fmt2 eh ++ ":" ++ fmt2 em,
         ((eh : Int) * 60 + (em : Int)) - ((sh : Int) * 60 + (sm : Int)))
      | none => (time, 30)
    else (time, 30)
  { date := date, time := td.1, duration := td.2, purpose := ("Meeting") }

/-- Raw structured output of a successful `json.loads`: every key optional
(`details.get`), duration already coerced to an integer.  (A failing
`int(...)` coercion raises like any other error and lands in the fallback
path; it is subsumed by the collaborator-error case.) -/
structure RawDetails where
  date : Option String
  time : Option String
  duration : Option Int
  purpose : Option String

/-- Index of the first occurrence of `c` (Python `str.index`), as the length
of the prefix before it; equals the whole length when `c` is absent. -/
def idxOfC (c : Char) (ds : List Char) : Nat :=
  (ds.takeWhile (fun x => x ≠ c)).length

/-- The opening curly brace character. -/
def lbrace : Char := Char.ofNat 123

/-- The closing curly brace character. -/
def rbrace : Char := Char.ofNat 125

/-- The code-fence stripping of `extract_details`: strip the collaborator
text, then cut out a ```json fenced block, else a plain ``` fenced block,
else slice from the first opening brace to the last closing brace
(`json_str[json_str.index(lbrace):json_str.rindex(rbrace)+1]`). -/
def stripFences (content : String) : String :=
  let json_str := stripS content
  if occursS json_str ("```json") then
    stripS ((splitS ((splitS json_str ("```json")).getD 1 ("")) ("```")).getD 0 (""))
  else if occursS json_str ("```") then
    stripS ((splitS json_str ("```")).getD 1 (""))
  else if occursL [lbrace] json_str.data && occursL [rbrace] json_str.data then
    let ds := json_str.data
    let i := idxOfC lbrace ds
    let j := ds.length - 1 - idxOfC rbrace ds.reverse
    String.mk ((ds.drop i).take (j + 1 - i))
  else json_str

/-- `extract_details` (`IntentExtractor`).  `jsonParse` is the external
`json.loads`; `llm` is the chat collaborator's response text, `Except.error`
modelling a raised exception (including an unreachable LLM).  On collaborator
failure or parse failure it delegates to `simple_extraction`; on success it
fills the same defaults for missing keys. -/
def extract_details (jsonParse : String → Option RawDetails)
    (llm : Except Unit String) (user_input : String) : Details :=
  match llm with
  | Except.error _ => simple_extraction user_input
  | Except.ok content =>
    match jsonParse (stripFences content) with
    | none => simple_extraction user_input
    | some raw =>
      { date := raw.date.getD ("today"), time := raw.time.getD ("12:00"),
        duration := raw.duration.getD 30, purpose := raw.purpose.getD ("Meeting") }

/-- Sanity check of the fallback embedding: an explicit time with pm. -/
theorem simple_extraction_example_pm :
    simple_extraction ("Book a meeting tomorrow at 2pm")
      = ⟨("tomorrow"), ("14:00"), 30, ("Meeting")⟩ := by decide

/-- Sanity check of the fallback embedding: a `between` range recomputes the
duration from the range length. -/
theorem simple_extraction_example_between :
    simple_extraction ("am I free between 2pm and 4pm")
      = ⟨("today"), ("14:00-16:00"), 120, ("Meeting")⟩ := by decide

/-- C8: whenever the LLM collaborator raises or its (fence-stripped) output
fails to parse as JSON, `extract_details` returns exactly the default-filled
details `simple_extraction` produces on the same raw text; being a total
function, it never raises. -/
theorem c8_extractor_falls_back (jsonParse : String → Option RawDetails)
    (llm : Except Unit String) (input : String)
    (h : llm = Except.error () ∨
      ∃ c, llm = Except.ok c ∧ jsonParse (stripFences c) = none) :
    extract_details jsonParse llm input = simple_extraction input := by
  rcases h with h | ⟨c, rfl, hp⟩
  · subst h
    rfl
  · show (match jsonParse (stripFences c) with
      | none => simple_extraction input
      | some raw =>
        ({ date := raw.date.getD ("today"), time := raw.time.getD ("12:00"),
           duration := raw.duration.getD 30,
           purpose := raw.purpose.getD ("Meeting") } : Details))
      = simple_extraction input
    rw [hp]

/-- Witness for C8 at a collaborator reply with no parsable JSON. -/
theorem c8_extractor_falls_back_witness :
    extract_details (fun _ => none) (Except.ok ("here is the plan, no json"))
        ("book a meeting tomorrow morning")
      = simple_extraction ("book a meeting tomorrow morning") :=
  c8_extractor_falls_back (fun _ => none)
    (Except.ok ("here is the plan, no json"))
    ("book a meeting tomorrow morning")
    (Or.inr ⟨("here is the plan, no json"), rfl, rfl⟩)

/-! ### Theorems about the state-machine operations -/

/-- The specification-side view of the `Check` filter: keep the slots whose
start hour `h` satisfies `sh <= h < eh`. -/
def hourWindowFilter (slots : List AgSlot) (sh eh : Nat) : List AgSlot :=
  slots.filter fun sl =>
    match slotHour sl.start with
    | some h => decide (sh ≤ h ∧ h < eh)
    | none => false

/-- When the window bounds parse to hours `sh` and `eh` and the comprehension
succeeds, the filtered list is exactly the hour-window filter of the input. -/
theorem filterInRange_eq_hourWindow (startT endT : String) (sh eh : Nat)
    (hs : toNatS ((splitS startT (":")).headD ("")) = some sh)
    (he : toNatS ((splitS endT (":")).headD ("")) = some eh) :
    ∀ slots filtered, filterInRange slots startT endT = some filtered →
      filtered = hourWindowFilter slots sh eh := by
  intro slots
  induction slots with
  | nil =>
    intro filtered h
    unfold filterInRange at h
    simp only [Option.some_inj] at h
    rw [← h]
    rfl
  | cons s rest ih =>
    intro filtered h
    unfold filterInRange at h
    unfold is_time_in_range at h
    rw [hs, he] at h
    cases hsl : slotHour s.start with
    | none => rw [hsl] at h; exact absurd h (by simp)
    | some hh =>
      rw [hsl] at h
      cases hrest : filterInRange rest startT endT with
      | none => rw [hrest] at h; exact absurd h (by simp)
      | some tl =>
        rw [hrest] at h
        have htl := ih tl hrest
        have hfe : (if decide (sh ≤ hh ∧ hh < eh) = true then s :: tl else tl)
            = filtered := by
          simpa using h
        rw [← hfe, htl]
        unfold hourWindowFilter
        rw [List.filter_cons]
        simp [hsl]

/-- C7: for every `Check`, when the hour-window filter of the free slots is
non-empty exactly that filtered list is stored as the available slots; when it
is empty the full unfiltered list is stored; in both cases the slot pointer is
reset to 0 (and the message sequence is untouched). -/
theorem c7_check_stores_filtered_or_degraded (all_slots : List AgSlot)
    (startT endT : String) (sh eh : Nat) (s : ConvState) (filtered : List AgSlot)
    (hs : toNatS ((splitS startT (":")).headD ("")) = some sh)
    (he : toNatS ((splitS endT (":")).headD ("")) = some eh)
    (hf : filterInRange all_slots startT endT = some filtered) :
    filtered = hourWindowFilter all_slots sh eh ∧
    (check_availability all_slots startT endT s).available_slots
      = (if filtered.isEmpty then all_slots else filtered) ∧
    (check_availability all_slots startT endT s).current_slot_index = 0 ∧
    (check_availability all_slots startT endT s).messages = s.messages := by
  refine ⟨filterInRange_eq_hourWindow startT endT sh eh hs he all_slots filtered hf,
    ?_, ?_, ?_⟩ <;> simp [check_availability, hf]

/-- Witness for C7: two morning/afternoon slots, window 09:00-12:00; only the
morning slot survives, the pointer is 0. -/
theorem c7_check_stores_filtered_or_degraded_witness :
    ([⟨"2026-10-13T09:00:00", "2026-10-13T09:30:00"⟩] : List AgSlot)
      = hourWindowFilter
          [⟨"2026-10-13T09:00:00", "2026-10-13T09:30:00"⟩,
           ⟨"2026-10-13T14:00:00", "2026-10-13T14:30:00"⟩] 9 12 ∧
    (check_availability
        [⟨"2026-10-13T09:00:00", "2026-10-13T09:30:00"⟩,
         ⟨"2026-10-13T14:00:00", "2026-10-13T14:30:00"⟩]
        ("09:00") ("12:00") freshState).available_slots
      = (if ([⟨"2026-10-13T09:00:00", "2026-10-13T09:30:00"⟩] : List AgSlot).isEmpty
          then [⟨"2026-10-13T09:00:00", "2026-10-13T09:30:00"⟩,
                ⟨"2026-10-13T14:00:00", "2026-10-13T14:30:00"⟩]
          else [⟨"2026-10-13T09:00:00", "2026-10-13T09:30:00"⟩]) ∧
    (check_availability
        [⟨"2026-10-13T09:00:00", "2026-10-13T09:30:00"⟩,
         ⟨"2026-10-13T14:00:00", "2026-10-13T14:30:00"⟩]
        ("09:00") ("12:00") freshState).current_slot_index = 0 ∧
    (check_availability
        [⟨"2026-10-13T09:00:00", "2026-10-13T09:30:00"⟩,
         ⟨"2026-10-13T14:00:00", "2026-10-13T14:30:00"⟩]
        ("09:00") ("12:00") freshState).messages = freshState.messages :=
  c7_check_stores_filtered_or_degraded
    [⟨"2026-10-13T09:00:00", "2026-10-13T09:30:00"⟩,
     ⟨"2026-10-13T14:00:00", "2026-10-13T14:30:00"⟩]
    ("09:00") ("12:00") 9 12 freshState
    [⟨"2026-10-13T09:00:00", "2026-10-13T09:30:00"⟩]
    (by decide) (by decide) (by decide)

/-- C4 counterexample: a session running Check, Suggest, Check sees the slot
pointer go 0, 1, 0 — `current_slot_index` decreases across the second Check —
while `suggested_slot` stays populated although the new pointer is 0, so it
cannot equal `AvailableSlots[CurrentSlotIndex-1]` (index -1 of the offered
prefix). -/
theorem c4_counterexample :
    (suggest_slots (check_availability
        [⟨"2026-10-13T09:00:00", "2026-10-13T09:30:00"⟩] ("09:00") ("17:00")
        freshState)).current_slot_index = 1 ∧
    (check_availability [⟨"2026-10-13T09:00:00", "2026-10-13T09:30:00"⟩]
        ("09:00") ("17:00")
        (suggest_slots (check_availability
          [⟨"2026-10-13T09:00:00", "2026-10-13T09:30:00"⟩] ("09:00") ("17:00")
          freshState))).current_slot_index = 0 ∧
    (check_availability [⟨"2026-10-13T09:00:00", "2026-10-13T09:30:00"⟩]
        ("09:00") ("17:00")
        (suggest_slots (check_availability
          [⟨"2026-10-13T09:00:00", "2026-10-13T09:30:00"⟩] ("09:00") ("17:00")
          freshState))).suggested_slot
      = some ⟨"2026-10-13T09:00:00", "2026-10-13T09:30:00"⟩ := by
  decide

/-- C4 amended: `suggest_slots` never decreases the slot pointer and, exactly
when it offers a slot, establishes `SuggestedSlot =
AvailableSlots[CurrentSlotIndex-1]`; `check_availability`, however, resets the
pointer to 0 (leaving `suggested_slot` unchanged), so across a whole session
the pointer may decrease and the indexing equation is not maintained past the
next Check. -/
theorem c4_amended :
    (∀ s : ConvState, s.current_slot_index ≤ (suggest_slots s).current_slot_index) ∧
    (∀ (all : List AgSlot) (startT endT : String) (s : ConvState) filtered,
      filterInRange all startT endT = some filtered →
      (check_availability all startT endT s).current_slot_index = 0 ∧
      (check_availability all startT endT s).suggested_slot = s.suggested_slot) ∧
    (∀ s : ConvState, ¬ s.available_slots.isEmpty →
      s.current_slot_index < s.available_slots.length →
      (suggest_slots s).suggested_slot
        = (suggest_slots s).available_slots.get?
            ((suggest_slots s).current_slot_index - 1)) := by
  refine ⟨?_, ?_, ?_⟩
  · intro s
    unfold suggest_slots
    split
    · simp
    · split <;> simp
  · intro all startT endT s filtered hf
    constructor <;> simp [check_availability, hf]
  · intro s hne hlt
    unfold suggest_slots
    rw [if_neg hne, dif_pos hlt]
    simp [List.get?_eq_get hlt]

/-- Witness for C4 amended, at a one-slot Check and the state right before a
Suggest. -/
theorem c4_amended_witness :
    ((check_availability [⟨"2026-10-13T09:00:00", "2026-10-13T09:30:00"⟩]
        ("09:00") ("17:00") freshState).current_slot_index = 0 ∧
     (check_availability [⟨"2026-10-13T09:00:00", "2026-10-13T09:30:00"⟩]
        ("09:00") ("17:00") freshState).suggested_slot = freshState.suggested_slot) ∧
    (suggest_slots ⟨[], [⟨"2026-10-13T09:00:00", "2026-10-13T09:30:00"⟩], 0, none, none⟩).suggested_slot
      = (suggest_slots ⟨[], [⟨"2026-10-13T09:00:00", "2026-10-13T09:30:00"⟩], 0, none, none⟩).available_slots.get?
          ((suggest_slots ⟨[], [⟨"2026-10-13T09:00:00", "2026-10-13T09:30:00"⟩], 0, none, none⟩).current_slot_index - 1) :=
  ⟨c4_amended.2.1 [⟨"2026-10-13T09:00:00", "2026-10-13T09:30:00"⟩]
      ("09:00") ("17:00") freshState
      [⟨"2026-10-13T09:00:00", "2026-10-13T09:30:00"⟩] (by decide),
   c4_amended.2.2 ⟨[], [⟨"2026-10-13T09:00:00", "2026-10-13T09:30:00"⟩], 0, none, none⟩
      (by decide) (by decide)⟩

/-- C5: on the slot-offering branch, `suggest_slots` replaces the whole
message list with the single new suggestion (`"messages": [AIMessage(...)]`
inside `.update`), dropping both messages appended by the previous turn —
the append-only discipline the specification claims does not hold. -/
theorem c5_suggest_replaces_messages :
    (suggest_slots ⟨[⟨Role.user, "book a meeting tomorrow"⟩,
                     ⟨Role.assistant, "Yes, I can check availability."⟩],
                    [⟨"2026-10-13T09:00:00", "2026-10-13T09:30:00"⟩],
                    0, none, none⟩).messages.length = 1 ∧
    (⟨Role.user, "book a meeting tomorrow"⟩ : Msg) ∉
      (suggest_slots ⟨[⟨Role.user, "book a meeting tomorrow"⟩,
                       ⟨Role.assistant, "Yes, I can check availability."⟩],
                      [⟨"2026-10-13T09:00:00", "2026-10-13T09:30:00"⟩],
                      0, none, none⟩).messages := by
  decide

/-- C3: when the calendar collaborator fails while a slot is suggested,
`book_appointment` swallows the exception and returns the empty dictionary,
`finalize_booking` stores that empty dictionary under `"booking"`, appends no
apology, leaves `suggested_slot` in place, and the subsequent
`generate_response` then raises `KeyError` on `booking["start"]` — contrary
to the claim that no Booking is recorded and an apology is appended. -/
theorem c3_booking_failure_stores_empty_booking :
    (finalize_booking (fun _ _ => Except.error ())
        ⟨[⟨Role.user, "yes"⟩],
         [⟨"2026-10-13T09:00:00", "2026-10-13T09:30:00"⟩], 1,
         some ⟨"2026-10-13T09:00:00", "2026-10-13T09:30:00"⟩, none⟩).booking
      = some none ∧
    (finalize_booking (fun _ _ => Except.error ())
        ⟨[⟨Role.user, "yes"⟩],
         [⟨"2026-10-13T09:00:00", "2026-10-13T09:30:00"⟩], 1,
         some ⟨"2026-10-13T09:00:00", "2026-10-13T09:30:00"⟩, none⟩).messages
      = [⟨Role.user, "yes"⟩] ∧
    (finalize_booking (fun _ _ => Except.error ())
        ⟨[⟨Role.user, "yes"⟩],
         [⟨"2026-10-13T09:00:00", "2026-10-13T09:30:00"⟩], 1,
         some ⟨"2026-10-13T09:00:00", "2026-10-13T09:30:00"⟩, none⟩).suggested_slot
      = some ⟨"2026-10-13T09:00:00", "2026-10-13T09:30:00"⟩ ∧
    generate_response (finalize_booking (fun _ _ => Except.error ())
        ⟨[⟨Role.user, "yes"⟩],
         [⟨"2026-10-13T09:00:00", "2026-10-13T09:30:00"⟩], 1,
         some ⟨"2026-10-13T09:00:00", "2026-10-13T09:30:00"⟩, none⟩)
      = none := by
  exact ⟨rfl, rfl, rfl, rfl⟩

/-- C9 counterexample: with no booking, a non-empty slot list, and the generic
prompt sitting earlier (not most recent) in the history, `generate_response`
appends nothing — the deduplication scans the whole message list, not just
the most recent message. -/
theorem c9_counterexample :
    generate_response ⟨[⟨Role.assistant, "How would you like to proceed?"⟩,
                        ⟨Role.user, "hello"⟩],
                       [⟨"2026-10-13T09:00:00", "2026-10-13T09:30:00"⟩],
                       0, none, none⟩
      = some ⟨[⟨Role.assistant, "How would you like to proceed?"⟩,
               ⟨Role.user, "hello"⟩],
              [⟨"2026-10-13T09:00:00", "2026-10-13T09:30:00"⟩],
              0, none, none⟩ ∧
    (⟨[⟨Role.assistant, "How would you like to proceed?"⟩,
       ⟨Role.user, "hello"⟩],
      [⟨"2026-10-13T09:00:00", "2026-10-13T09:30:00"⟩],
      0, none, none⟩ : ConvState).messages.getLast?
      = some ⟨Role.user, "hello"⟩ := by
  decide

/-- C9 amended: for every render case — the booking confirmation when a
populated Booking exists, the "no slots" message when none were found, the
generic prompt otherwise — `generate_response` appends the rendered text
exactly when that text matches the content of no message anywhere in the
sequence; a text equal to any earlier message, most recent or not, is not
appended.  (The sole excluded state, `booking = {}`, renders nothing: the
source raises `KeyError` there.) -/
theorem c9_amended (s : ConvState) (resp : String)
    (hok : s.booking ≠ some none)
    (hr : resp = match s.booking with
      | some (some b) => confirmText b
      | _ => if s.available_slots.isEmpty
          then ("No available slots found for your requested time.")
          else ("How would you like to proceed?")) :
    generate_response s = some (dedupAppend s resp) ∧
    (s.messages.any (fun m => m.content == resp) = false →
      (dedupAppend s resp).messages = s.messages ++ [⟨Role.assistant, resp⟩]) ∧
    (s.messages.any (fun m => m.content == resp) = true →
      (dedupAppend s resp).messages = s.messages) := by
  refine ⟨?_, ?_, ?_⟩
  · subst hr
    unfold generate_response
    rcases hb : s.booking with _ | ob
    · rfl
    · rcases ob with _ | b
      · exact absurd hb hok
      · rfl
  · intro h
    unfold dedupAppend
    rw [h]
    simp
  · intro h
    unfold dedupAppend
    rw [h]
    simp

/-- Witness for C9 amended, at the empty fresh session (the "no slots" text
is rendered and appended) and at a state with a populated Booking (the
confirmation text is rendered and appended). -/
theorem c9_amended_witness :
    (generate_response freshState
      = some (dedupAppend freshState ("No available slots found for your requested time.")) ∧
    (dedupAppend freshState ("No available slots found for your requested time.")).messages
      = freshState.messages ++
        [⟨Role.assistant, "No available slots found for your requested time."⟩]) ∧
    (generate_response
        ⟨[], [], 0, none, some (some ⟨("id1"), ("link1"),
          ("2026-10-13T09:00:00"), ("2026-10-13T09:30:00")⟩)⟩
      = some (dedupAppend
          ⟨[], [], 0, none, some (some ⟨("id1"), ("link1"),
            ("2026-10-13T09:00:00"), ("2026-10-13T09:30:00")⟩)⟩
          (confirmText ⟨("id1"), ("link1"),
            ("2026-10-13T09:00:00"), ("2026-10-13T09:30:00")⟩)) ∧
    (dedupAppend
        ⟨[], [], 0, none, some (some ⟨("id1"), ("link1"),
          ("2026-10-13T09:00:00"), ("2026-10-13T09:30:00")⟩)⟩
        (confirmText ⟨("id1"), ("link1"),
          ("2026-10-13T09:00:00"), ("2026-10-13T09:30:00")⟩)).messages
      = [] ++ [⟨Role.assistant, confirmText ⟨("id1"), ("link1"),
          ("2026-10-13T09:00:00"), ("2026-10-13T09:30:00")⟩⟩]) :=
  ⟨⟨(c9_amended freshState ("No available slots found for your requested time.")
      (by decide) rfl).1,
    (c9_amended freshState ("No available slots found for your requested time.")
      (by decide) rfl).2.1 (by decide)⟩,
   (c9_amended
      ⟨[], [], 0, none, some (some ⟨("id1"), ("link1"),
        ("2026-10-13T09:00:00"), ("2026-10-13T09:30:00")⟩)⟩
      (confirmText ⟨("id1"), ("link1"),
        ("2026-10-13T09:00:00"), ("2026-10-13T09:30:00")⟩)
      (by decide) rfl).1,
   (c9_amended
      ⟨[], [], 0, none, some (some ⟨("id1"), ("link1"),
        ("2026-10-13T09:00:00"), ("2026-10-13T09:30:00")⟩)⟩
      (confirmText ⟨("id1"), ("link1"),
        ("2026-10-13T09:00:00"), ("2026-10-13T09:30:00")⟩)
      (by decide) rfl).2.1 (by decide)⟩

/-- C10: `process_message` with an empty (falsy) user id returns the fixed
authentication-error string and leaves the conversation store completely
unchanged, whatever the turn workflow would do. -/
theorem c10_empty_user_id (runTurn : ConvState → String → ConvState)
    (store : Store) (message : String) :
    process_message runTurn store message ("")
      = (("Authentication error. Please sign in again."), store) := rfl

end Spec2Proof
